import Mathlib

/-!
Verification of the SlowMA-MVP constellation widget.

Shallow embedding of `src/frontend/static/constellation.js` (the primary
variant of the `Constellation` class), together with the scheduling skeleton
of the variant in `src/unnamed/part_000` (its `animate`/`destroy` pair) and
the guarded entry point `initConstellation` of `src/unnamed/part_001`.

Modelling conventions:
* JS numbers are embedded as `ℚ` where the code only does field arithmetic,
  and as `ℝ` where the code calls `Math.cos` / `Math.sin` / `Math.sqrt`.
* Every angle the code ever computes has the form `q·π + c` with `q c : ℚ`
  (a rational multiple of π from the sector/seed formulas, plus a rational
  jitter).  Angles are therefore represented by the computable pair
  `Angle = (piCoeff, shift)` with interpretation `piCoeff·π + shift`.
* `Math.random()` is an oracle: the layout receives streams `ℕ → ℚ` giving
  the raw random draw consumed by each star index (one stream per call
  site, so distinct call sites are independent).
* The per-frame callback (`animate` plus the mutation parts of
  `drawStar` / `drawCompanionStar`) is embedded as a state-transformer
  `frameStep`; pure canvas painting (gradients, arcs, strokes) has no
  observable state and is not modelled.
-/

namespace SlowMA

/-- The `type` tag of a star object (`'companion' | 'seed' | 'journey'`). -/
inductive StarKind where
  | companion
  | seed
  | journey
deriving DecidableEq, Repr, Inhabited

/-- A record of `data.seed_artworks` (`{id, title, artist}`). -/
structure SeedRecord where
  id : ℕ := 0
  title : String := ""
  artist : String := ""
deriving DecidableEq, Repr, Inhabited

/-- A record of `data.journeys`
(`{journey_id, artwork_title, artwork_artist, stage, substage, completed_at}`). -/
structure JourneyRecord where
  journey_id : ℕ := 0
  artwork_title : String := ""
  artwork_artist : String := ""
  stage : ℤ := 1
  substage : ℤ := 1
  completed_at : ℤ := 0
deriving DecidableEq, Repr, Inhabited

/-- The snapshot object `constellationData` consumed by the constructor of
`constellation.js`: current stage/substage, journey count, the ordered list of
completed journeys (most-recent-first) and the seed artworks. -/
structure SnapshotData where
  current_stage : ℤ := 1
  current_substage : ℤ := 1
  journey_count : ℤ := 0
  journeys : List JourneyRecord := []
  seed_artworks : List SeedRecord := []
deriving DecidableEq, Repr, Inhabited

/-- `getStageColor` of `constellation.js` (lines 150-159): the five fixed
stage colors, with fallback `'#ffffff'` (`colors[stage] || '#ffffff'`). -/
def getStageColor (stage : ℤ) : String :=
  if stage = 1 then "#ff6b6b"
  else if stage = 2 then "#4ecdc4"
  else if stage = 3 then "#9b59b6"
  else if stage = 4 then "#f39c12"
  else if stage = 5 then "#e8f5e9"
  else "#ffffff"

/-- `getCompanionColor` of `constellation.js`: the stage color of the user's
current stage. -/
def getCompanionColor (s : SnapshotData) : String :=
  getStageColor s.current_stage

/-- The guard of the seed-star block in `initializeStars` of
`constellation.js`: `this.data.journey_count < 10`.  This is the
spec-level `showSeeds` flag (the `part_000` variant receives the same flag
pre-computed as `data.show_seeds`). -/
def showSeeds (s : SnapshotData) : Bool :=
  decide (s.journey_count < 10)

/-- C2 counterexample: the claim says every out-of-range stage maps to the
stage-1 color, but `getStageColor 0` is the fallback `'#ffffff'`, which is not
the stage-1 color `'#ff6b6b'`. -/
theorem claim2_counterexample :
    getStageColor 0 = "#ffffff" ∧ getStageColor 1 = "#ff6b6b" ∧
      getStageColor 0 ≠ getStageColor 1 := by
  refine ⟨rfl, rfl, ?_⟩
  decide

/-- C2 (amended): the stage-color mapping is total; the five in-range colors
are pairwise distinct; every other input returns the fixed fallback color
`'#ffffff'` (not the stage-1 color). -/
theorem claim2_stage_color_total :
    ([getStageColor 1, getStageColor 2, getStageColor 3, getStageColor 4,
        getStageColor 5].Pairwise (· ≠ ·)) ∧
      (∀ stage : ℤ, stage ∉ ([1, 2, 3, 4, 5] : List ℤ) →
        getStageColor stage = "#ffffff") := by
  constructor
  · decide
  · intro stage hs
    simp only [List.mem_cons, List.not_mem_nil, or_false, not_or] at hs
    obtain ⟨h1, h2, h3, h4, h5⟩ := hs
    simp [getStageColor, h1, h2, h3, h4, h5]

/-- Witness for C2: the out-of-range stage `7` indeed maps to `'#ffffff'`. -/
theorem claim2_witness :
    getStageColor 7 = "#ffffff" ∧ (7 : ℤ) ∉ ([1, 2, 3, 4, 5] : List ℤ) :=
  ⟨claim2_stage_color_total.2 7 (by decide), by decide⟩

/-- An angle computed by the widget, represented as `piCoeff·π + shift`.
Every angle in the source is of this shape: sector angles and seed angles are
rational multiples of `Math.PI`, and the random jitter of
`getAngleForStage` is the rational `(Math.random() - 0.5) * 0.3`. -/
structure Angle where
  piCoeff : ℚ
  shift : ℚ
deriving DecidableEq, Repr, Inhabited

/-- The real value of an `Angle`. -/
noncomputable def Angle.toReal (a : Angle) : ℝ :=
  (a.piCoeff : ℝ) * Real.pi + (a.shift : ℝ)

/-- The Cartesian point `(cx + Math.cos(angle) * d, cy + Math.sin(angle) * d)`
used by every placement in `initializeStars` / `createJourneyStar` /
`organizeConstellations`. -/
noncomputable def polarPos (cx cy : ℚ) (a : Angle) (d : ℚ) : ℝ × ℝ :=
  ((cx : ℝ) + Real.cos a.toReal * (d : ℝ), (cy : ℝ) + Real.sin a.toReal * (d : ℝ))

/-- The canvas center `(this.centerX, this.centerY) = (width/2, height/2)`
set by `resize`. -/
noncomputable def centerPt (w h : ℚ) : ℝ × ℝ :=
  (((w / 2 : ℚ) : ℝ), ((h / 2 : ℚ) : ℝ))

/-- Euclidean distance between two points (`Math.hypot`). -/
noncomputable def euclidDist (p q : ℝ × ℝ) : ℝ :=
  Real.sqrt ((p.1 - q.1) ^ 2 + (p.2 - q.2) ^ 2)

/-- A star entity owned by the engine; the mutable fields of the JS star
objects.  `target` is `targetX/targetY` (`none` = `undefined`); positions and
animation accumulators are real-valued, everything else rational. -/
structure Star where
  kind : StarKind := .companion
  id : ℕ := 0
  title : String := ""
  artist : String := ""
  stage : ℤ := 0
  substage : ℤ := 0
  timestamp : ℤ := 0
  x : ℝ := 0
  y : ℝ := 0
  baseSize : ℚ := 0
  size : ℝ := 0
  pulse : ℝ := 0
  shimmer : ℝ := 0
  color : String := ""
  recency : ℚ := 0
  glow : ℚ := 0
  target : Option (ℝ × ℝ) := none
deriving Inhabited

/-- The current position `(star.x, star.y)` of a star. -/
def starPos (st : Star) : ℝ × ℝ :=
  (st.x, st.y)

/-- The `Math.random()` oracle: one independent stream per call site of the
layout, indexed by the star index that consumes the draw. -/
structure Rnd where
  seedPulse : ℕ → ℚ := fun _ => 0
  seedShimmer : ℕ → ℚ := fun _ => 0
  journeyPulse : ℕ → ℚ := fun _ => 0
  jitter : ℕ → ℚ := fun _ => 0

/-- The all-zero random oracle (used for concrete evaluations). -/
def zeroRnd : Rnd := {}

/-- `minDistance` of `createJourneyStar` / `organizeConstellations`. -/
def minDistance : ℚ := 60

/-- `maxDistance = Math.min(width, height) * 0.4`. -/
def maxDistance (w h : ℚ) : ℚ :=
  min w h * (2 / 5)

/-- The seed-circle radius `Math.min(width, height) * 0.25` of
`initializeStars`. -/
def seedDist (w h : ℚ) : ℚ :=
  min w h * (1 / 4)

/-- The radial distance
`minDistance + (1 - recency) * (maxDistance - minDistance)` of
`createJourneyStar` (recomputed identically in `organizeConstellations`). -/
def journeyDistance (w h r : ℚ) : ℚ :=
  minDistance + (1 - r) * (maxDistance w h - minDistance)

/-- The seed angle `(Math.PI * 2 * index) / count` of `initializeStars`. -/
def seedAngle (i n : ℕ) : Angle :=
  ⟨2 * (i : ℚ) / (n : ℚ), 0⟩

/-- `getAngleForStage`: base sector angle `((stage - 1) * 2π) / 5` plus the
random jitter `(Math.random() - 0.5) * 0.3`, where `r` is the raw random
draw. -/
def getAngleForStage (stage : ℤ) (r : ℚ) : Angle :=
  ⟨((stage : ℚ) - 1) * 2 / 5, (r - 1 / 2) * (3 / 10)⟩

/-- The regrouped angle of `organizeConstellations`: the stage's base sector
angle plus the deterministic spread offset
`(index / groupSize - 0.5) * (π / 3)` for the star's position inside its
stage group. -/
def organizeAngle (stage : ℤ) (g m : ℕ) : Angle :=
  ⟨((stage : ℚ) - 1) * 2 / 5 + ((g : ℚ) / (m : ℚ) - 1 / 2) * (1 / 3), 0⟩

/-- The companion star literal of `initializeStars` (placed at the canvas
center, base size 8, glow 15, colored by the user's current stage). -/
noncomputable def companionStar (w h : ℚ) (stage : ℤ) : Star :=
  { kind := .companion
    x := ((w / 2 : ℚ) : ℝ)
    y := ((h / 2 : ℚ) : ℝ)
    baseSize := 8
    size := 8
    pulse := 0
    color := getStageColor stage
    glow := 15 }

/-- The seed star literal pushed by `initializeStars` for seed `rec` at index
`i` of `n`: gold, base size 5, on the seed circle at angle `2π·i/n`;
`rp`/`rs` are the raw random draws for `pulse` and `shimmer`. -/
noncomputable def createSeedStar (w h : ℚ) (i n : ℕ) (rec : SeedRecord)
    (rp rs : ℚ) : Star :=
  let p := polarPos (w / 2) (h / 2) (seedAngle i n) (seedDist w h)
  { kind := .seed
    id := rec.id
    title := rec.title
    artist := rec.artist
    x := p.1
    y := p.2
    baseSize := 5
    size := 5
    pulse := (rp : ℝ) * Real.pi * 2
    color := "#ffd700"
    shimmer := (rs : ℝ) }

/-- `createJourneyStar` for the journey record at input index `i` of `n`
(most-recent-first): recency `(n - i)/n`, radial distance interpolated
between `minDistance` and `maxDistance`, angle from `getAngleForStage`;
`rj`/`rp` are the raw random draws for the jitter and for `pulse`. -/
noncomputable def createJourneyStar (w h : ℚ) (n i : ℕ) (j : JourneyRecord)
    (rj rp : ℚ) : Star :=
  let recency : ℚ := ((n : ℚ) - (i : ℚ)) / (n : ℚ)
  let d := journeyDistance w h recency
  let p := polarPos (w / 2) (h / 2) (getAngleForStage j.stage rj) d
  { kind := .journey
    id := j.journey_id
    title := j.artwork_title
    artist := j.artwork_artist
    stage := j.stage
    substage := j.substage
    timestamp := j.completed_at
    x := p.1
    y := p.2
    baseSize := 4
    size := 4
    pulse := (rp : ℝ) * Real.pi * 2
    color := getStageColor j.stage
    recency := recency }

/-- The seed-star loop of `initializeStars` (`seed_artworks.forEach`),
starting at index `i`. -/
noncomputable def seedStarsFrom (w h : ℚ) (n : ℕ) (rp rs : ℕ → ℚ) :
    ℕ → List SeedRecord → List Star
  | _, [] => []
  | i, rec :: rest =>
      createSeedStar w h i n rec (rp i) (rs i) ::
        seedStarsFrom w h n rp rs (i + 1) rest

/-- The journey-star loop of `initializeStars` (`journeys.forEach`),
starting at index `i`. -/
noncomputable def journeyStarsFrom (w h : ℚ) (n : ℕ) (rj rp : ℕ → ℚ) :
    ℕ → List JourneyRecord → List Star
  | _, [] => []
  | i, j :: rest =>
      createJourneyStar w h n i j (rj i) (rp i) ::
        journeyStarsFrom w h n rj rp (i + 1) rest

/-- `star.type === 'journey' && star.stage === k`: membership of a star in
the stage-`k` group of `organizeConstellations`. -/
def hasStage (k : ℤ) (st : Star) : Bool :=
  st.kind == .journey && st.stage == k

/-- The per-star effect of `organizeConstellations` on the star at array
index `i` of the star list `all`: journey stars with truthy stage receive a
`targetX/targetY` computed from their position inside their stage group
(group index = number of same-stage journey stars before them, group size =
total number); all other stars are untouched.  (For a stage outside `1..5`
and nonzero the JS code would throw on `stageGroups[stage]`; the data model
restricts stages to `1..5`, and all sector theorems below assume that.) -/
noncomputable def assignTarget (w h : ℚ) (all : List Star) (i : ℕ)
    (st : Star) : Star :=
  if st.kind == .journey && st.stage != 0 then
    { st with
        target := some (polarPos (w / 2) (h / 2)
          (organizeAngle st.stage ((all.take i).countP (hasStage st.stage))
            (all.countP (hasStage st.stage)))
          (journeyDistance w h st.recency)) }
  else st

/-- The traversal of `organizeConstellations` over the star array
(`all` is the full array, `i` the index of the first star of `l` in it). -/
noncomputable def setTargetsFrom (w h : ℚ) (all : List Star) :
    ℕ → List Star → List Star
  | _, [] => []
  | i, st :: rest =>
      assignTarget w h all i st :: setTargetsFrom w h all (i + 1) rest

/-- `organizeConstellations` as a function on the star array. -/
noncomputable def setTargets (w h : ℚ) (stars : List Star) : List Star :=
  setTargetsFrom w h stars 0 stars

/-- `initializeStars` of `constellation.js`: companion star (kept in the
separate field `this.companionStar`), then seed stars iff
`journey_count < 10`, then journey stars, then `organizeConstellations`
over the star array. -/
noncomputable def initStars (w h : ℚ) (s : SnapshotData) (r : Rnd) :
    Star × List Star :=
  let comp := companionStar w h s.current_stage
  let seeds :=
    if showSeeds s then
      seedStarsFrom w h s.seed_artworks.length r.seedPulse r.seedShimmer 0
        s.seed_artworks
    else []
  let js := journeyStarsFrom w h s.journeys.length r.jitter r.journeyPulse 0
    s.journeys
  (comp, setTargets w h (seeds ++ js))

lemma seedStarsFrom_length (w h : ℚ) (n : ℕ) (rp rs : ℕ → ℚ)
    (l : List SeedRecord) : ∀ i, (seedStarsFrom w h n rp rs i l).length = l.length := by
  induction l with
  | nil => intro i; rfl
  | cons a l ih => intro i; simp [seedStarsFrom, ih]

lemma journeyStarsFrom_length (w h : ℚ) (n : ℕ) (rj rp : ℕ → ℚ)
    (l : List JourneyRecord) : ∀ i, (journeyStarsFrom w h n rj rp i l).length = l.length := by
  induction l with
  | nil => intro i; rfl
  | cons a l ih => intro i; simp [journeyStarsFrom, ih]

lemma setTargetsFrom_length (w h : ℚ) (all : List Star) (l : List Star) :
    ∀ i, (setTargetsFrom w h all i l).length = l.length := by
  induction l with
  | nil => intro i; rfl
  | cons a l ih => intro i; simp [setTargetsFrom, ih]

lemma assignTarget_kind (w h : ℚ) (all : List Star) (i : ℕ) (st : Star) :
    (assignTarget w h all i st).kind = st.kind := by
  unfold assignTarget
  split <;> rfl

lemma setTargetsFrom_countP_kind (w h : ℚ) (all : List Star)
    (p : StarKind → Bool) (l : List Star) :
    ∀ i, (setTargetsFrom w h all i l).countP (fun st => p st.kind) =
      l.countP (fun st => p st.kind) := by
  induction l with
  | nil => intro i; rfl
  | cons a l ih =>
      intro i
      simp [setTargetsFrom, List.countP_cons, ih, assignTarget_kind]

lemma seedStarsFrom_kind (w h : ℚ) (n : ℕ) (rp rs : ℕ → ℚ)
    (l : List SeedRecord) :
    ∀ i, ∀ st ∈ seedStarsFrom w h n rp rs i l, st.kind = .seed := by
  induction l with
  | nil => intro i st hst; simp [seedStarsFrom] at hst
  | cons a l ih =>
      intro i st hst
      simp only [seedStarsFrom, List.mem_cons] at hst
      rcases hst with rfl | hst
      · rfl
      · exact ih (i + 1) st hst

lemma journeyStarsFrom_kind (w h : ℚ) (n : ℕ) (rj rp : ℕ → ℚ)
    (l : List JourneyRecord) :
    ∀ i, ∀ st ∈ journeyStarsFrom w h n rj rp i l, st.kind = .journey := by
  induction l with
  | nil => intro i st hst; simp [journeyStarsFrom] at hst
  | cons a l ih =>
      intro i st hst
      simp only [journeyStarsFrom, List.mem_cons] at hst
      rcases hst with rfl | hst
      · rfl
      · exact ih (i + 1) st hst

/-- C1: for every snapshot, layout produces exactly
`1 + (showSeeds ? seedCount : 0) + journeyCount` stars, exactly one of them
of kind `companion`, and the number of seed stars is `seedCount` when
`showSeeds` holds and `0` otherwise. -/
theorem claim1_star_count (w h : ℚ) (s : SnapshotData) (r : Rnd) :
    ((initStars w h s r).1 :: (initStars w h s r).2).length =
        1 + (if showSeeds s then s.seed_artworks.length else 0) +
          s.journeys.length ∧
      ((initStars w h s r).1 :: (initStars w h s r).2).countP
          (fun st => st.kind == .companion) = 1 ∧
      ((initStars w h s r).1 :: (initStars w h s r).2).countP
          (fun st => st.kind == .seed) =
        (if showSeeds s then s.seed_artworks.length else 0) := by
  have hseed0 :
      ∀ st ∈ (if showSeeds s then
          seedStarsFrom w h s.seed_artworks.length r.seedPulse r.seedShimmer 0
            s.seed_artworks
        else []), st.kind = .seed := by
    intro st hst
    split at hst
    · exact seedStarsFrom_kind w h _ _ _ _ 0 st hst
    · simp at hst
  have hjour0 :
      ∀ st ∈ journeyStarsFrom w h s.journeys.length r.jitter r.journeyPulse 0
          s.journeys, st.kind = .journey := by
    intro st hst
    exact journeyStarsFrom_kind w h _ _ _ _ 0 st hst
  refine ⟨?_, ?_, ?_⟩
  · simp only [initStars, List.length_cons, setTargets, setTargetsFrom_length,
      List.length_append, journeyStarsFrom_length]
    split
    · simp [seedStarsFrom_length]; omega
    · simp; omega
  · simp only [initStars, List.countP_cons, setTargets,
      setTargetsFrom_countP_kind (p := fun k => k == .companion),
      List.countP_append]
    have h1 : (List.countP (fun st => st.kind == .companion)
        (if showSeeds s then
          seedStarsFrom w h s.seed_artworks.length r.seedPulse r.seedShimmer 0
            s.seed_artworks
        else [])) = 0 := by
      rw [List.countP_eq_zero]
      intro st hst
      rw [hseed0 st hst]; decide
    have h2 : (List.countP (fun st => st.kind == .companion)
        (journeyStarsFrom w h s.journeys.length r.jitter r.journeyPulse 0
          s.journeys)) = 0 := by
      rw [List.countP_eq_zero]
      intro st hst
      rw [hjour0 st hst]; decide
    simp [h1, h2, companionStar]
  · simp only [initStars, List.countP_cons, setTargets,
      setTargetsFrom_countP_kind (p := fun k => k == .seed),
      List.countP_append]
    have h1 : (List.countP (fun st => st.kind == .seed)
        (if showSeeds s then
          seedStarsFrom w h s.seed_artworks.length r.seedPulse r.seedShimmer 0
            s.seed_artworks
        else [])) =
        (if showSeeds s then s.seed_artworks.length else 0) := by
      split
      · rw [List.countP_eq_length.2]
        · exact seedStarsFrom_length w h _ _ _ _ 0
        · intro st hst
          rw [seedStarsFrom_kind w h _ _ _ _ 0 st hst]; decide
      · rfl
    have h2 : (List.countP (fun st => st.kind == .seed)
        (journeyStarsFrom w h s.journeys.length r.jitter r.journeyPulse 0
          s.journeys)) = 0 := by
      rw [List.countP_eq_zero]
      intro st hst
      rw [hjour0 st hst]; decide
    simp [h1, h2, companionStar]

/-- A sample seed record (all fields defaulted). -/
def srec : SeedRecord := {}

/-- A snapshot with four seed artworks and no journeys. -/
def snapSeeds : SnapshotData := { seed_artworks := [srec, srec, srec, srec] }

/-- A snapshot with two stage-1 journeys and no seed artworks. -/
def snap2 : SnapshotData :=
  { journey_count := 2, journeys := [{}, {}], seed_artworks := [] }

lemma euclidDist_centerPt_polarPos (w h : ℚ) (a : Angle) (d : ℚ) :
    euclidDist (centerPt w h) (polarPos (w / 2) (h / 2) a d) = |(d : ℝ)| := by
  unfold euclidDist centerPt polarPos
  have hid : Real.sin a.toReal ^ 2 + Real.cos a.toReal ^ 2 = 1 :=
    Real.sin_sq_add_cos_sq a.toReal
  have h1 : (((w / 2 : ℚ) : ℝ) -
        (((w / 2 : ℚ) : ℝ) + Real.cos a.toReal * (d : ℝ))) ^ 2 +
      (((h / 2 : ℚ) : ℝ) -
        (((h / 2 : ℚ) : ℝ) + Real.sin a.toReal * (d : ℝ))) ^ 2 =
      ((d : ℝ)) ^ 2 := by
    linear_combination ((d : ℝ)) ^ 2 * hid
  rw [h1, Real.sqrt_sq_eq_abs]

lemma assignTarget_starPos (w h : ℚ) (all : List Star) (i : ℕ) (st : Star) :
    starPos (assignTarget w h all i st) = starPos st := by
  unfold assignTarget
  split <;> rfl

lemma seedStarsFrom_getElem (w h : ℚ) (n : ℕ) (rp rs : ℕ → ℚ)
    (l : List SeedRecord) :
    ∀ i k (hk : k < l.length)
      (hk2 : k < (seedStarsFrom w h n rp rs i l).length),
      (seedStarsFrom w h n rp rs i l)[k] =
        createSeedStar w h (i + k) n l[k] (rp (i + k)) (rs (i + k)) := by
  induction l with
  | nil => intro i k hk _; exact absurd hk (by simp)
  | cons a l ih =>
      intro i k hk hk2
      match k with
      | 0 => simp [seedStarsFrom]
      | Nat.succ k =>
          have hk' : k < l.length := by simpa using hk
          have hk2' : k < (seedStarsFrom w h n rp rs (i + 1) l).length := by
            rw [seedStarsFrom_length]; exact hk'
          have := ih (i + 1) k hk' hk2'
          simp only [seedStarsFrom, List.getElem_cons_succ, this]
          have harith : i + 1 + k = i + (k + 1) := by omega
          rw [harith]

lemma journeyStarsFrom_getElem (w h : ℚ) (n : ℕ) (rj rp : ℕ → ℚ)
    (l : List JourneyRecord) :
    ∀ i k (hk : k < l.length)
      (hk2 : k < (journeyStarsFrom w h n rj rp i l).length),
      (journeyStarsFrom w h n rj rp i l)[k] =
        createJourneyStar w h n (i + k) l[k] (rj (i + k)) (rp (i + k)) := by
  induction l with
  | nil => intro i k hk _; exact absurd hk (by simp)
  | cons a l ih =>
      intro i k hk hk2
      match k with
      | 0 => simp [journeyStarsFrom]
      | Nat.succ k =>
          have hk' : k < l.length := by simpa using hk
          have hk2' : k < (journeyStarsFrom w h n rj rp (i + 1) l).length := by
            rw [journeyStarsFrom_length]; exact hk'
          have := ih (i + 1) k hk' hk2'
          simp only [journeyStarsFrom, List.getElem_cons_succ, this]
          have harith : i + 1 + k = i + (k + 1) := by omega
          rw [harith]

lemma setTargetsFrom_getElem (w h : ℚ) (all : List Star) (l : List Star) :
    ∀ i k (hk : k < l.length)
      (hk2 : k < (setTargetsFrom w h all i l).length),
      (setTargetsFrom w h all i l)[k] = assignTarget w h all (i + k) l[k] := by
  induction l with
  | nil => intro i k hk _; exact absurd hk (by simp)
  | cons a l ih =>
      intro i k hk hk2
      match k with
      | 0 => simp [setTargetsFrom]
      | Nat.succ k =>
          have hk' : k < l.length := by simpa using hk
          have hk2' : k < (setTargetsFrom w h all (i + 1) l).length := by
            rw [setTargetsFrom_length]; exact hk'
          have := ih (i + 1) k hk' hk2'
          simp only [setTargetsFrom, List.getElem_cons_succ, this]
          have harith : i + 1 + k = i + (k + 1) := by omega
          rw [harith]

/-- The journey stars of the layout, in input (most-recent-first) order. -/
noncomputable def journeyStarsOf (w h : ℚ) (s : SnapshotData) (r : Rnd) :
    List Star :=
  (initStars w h s r).2.filter (fun st => st.kind == .journey)

lemma filter_kind_setTargetsFrom_map_starPos (w h : ℚ) (all : List Star)
    (l : List Star) :
    ∀ i, ((setTargetsFrom w h all i l).filter
        (fun st => st.kind == .journey)).map starPos =
      (l.filter (fun st => st.kind == .journey)).map starPos := by
  induction l with
  | nil => intro i; rfl
  | cons a l ih =>
      intro i
      by_cases ha : a.kind = .journey
      · have h1 : ((assignTarget w h all i a).kind == StarKind.journey) = true := by
          rw [assignTarget_kind, ha]; decide
        have h2 : (a.kind == StarKind.journey) = true := by rw [ha]; decide
        simp only [setTargetsFrom, List.filter_cons, h1, h2, if_pos,
          List.map_cons, ih, assignTarget_starPos]
      · have h1 : ((assignTarget w h all i a).kind == StarKind.journey) = false := by
          rw [assignTarget_kind]
          simpa using ha
        have h2 : (a.kind == StarKind.journey) = false := by simpa using ha
        simp only [setTargetsFrom, List.filter_cons, h1, h2, Bool.false_eq_true,
          if_false]
        exact ih (i + 1)

lemma journeyStarsOf_map_starPos (w h : ℚ) (s : SnapshotData) (r : Rnd) :
    (journeyStarsOf w h s r).map starPos =
      (journeyStarsFrom w h s.journeys.length r.jitter r.journeyPulse 0
        s.journeys).map starPos := by
  unfold journeyStarsOf initStars setTargets
  simp only [filter_kind_setTargetsFrom_map_starPos]
  rw [List.filter_append]
  have hseeds : (List.filter (fun st => st.kind == StarKind.journey)
      (if showSeeds s then
        seedStarsFrom w h s.seed_artworks.length r.seedPulse r.seedShimmer 0
          s.seed_artworks
      else [])) = [] := by
    rw [List.filter_eq_nil_iff]
    intro st hst
    split at hst
    · rw [seedStarsFrom_kind w h _ _ _ _ 0 st hst]; decide
    · simp at hst
  have hjs : (List.filter (fun st => st.kind == StarKind.journey)
      (journeyStarsFrom w h s.journeys.length r.jitter r.journeyPulse 0
        s.journeys)) =
      journeyStarsFrom w h s.journeys.length r.jitter r.journeyPulse 0
        s.journeys := by
    rw [List.filter_eq_self]
    intro st hst
    rw [journeyStarsFrom_kind w h _ _ _ _ 0 st hst]; decide
  rw [hseeds, hjs]
  simp

lemma journeyStarsOf_length (w h : ℚ) (s : SnapshotData) (r : Rnd) :
    (journeyStarsOf w h s r).length = s.journeys.length := by
  have := congrArg List.length (journeyStarsOf_map_starPos w h s r)
  simpa [journeyStarsFrom_length] using this

lemma journeyStarsOf_starPos (w h : ℚ) (s : SnapshotData) (r : Rnd) (k : ℕ)
    (hk : k < s.journeys.length) :
    starPos ((journeyStarsOf w h s r)[k]!) =
      polarPos (w / 2) (h / 2)
        (getAngleForStage (s.journeys[k]).stage (r.jitter k))
        (journeyDistance w h
          (((s.journeys.length : ℚ) - (k : ℚ)) / (s.journeys.length : ℚ))) := by
  have hk1 : k < (journeyStarsOf w h s r).length := by
    rw [journeyStarsOf_length]; exact hk
  have hk2 : k < (journeyStarsFrom w h s.journeys.length r.jitter
      r.journeyPulse 0 s.journeys).length := by
    rw [journeyStarsFrom_length]; exact hk
  have hmap := journeyStarsOf_map_starPos w h s r
  have hk1m : k < ((journeyStarsOf w h s r).map starPos).length := by
    rw [List.length_map]; exact hk1
  have hk2m : k < ((journeyStarsFrom w h s.journeys.length r.jitter
      r.journeyPulse 0 s.journeys).map starPos).length := by
    rw [List.length_map]; exact hk2
  have hget : starPos ((journeyStarsOf w h s r)[k]) =
      starPos ((journeyStarsFrom w h s.journeys.length r.jitter
        r.journeyPulse 0 s.journeys)[k]) := by
    have h1 : ((journeyStarsOf w h s r).map starPos)[k] =
        ((journeyStarsFrom w h s.journeys.length r.jitter r.journeyPulse 0
          s.journeys).map starPos)[k] := by
      simp only [hmap]
    simpa using h1
  rw [getElem!_pos (journeyStarsOf w h s r) k hk1, hget,
    journeyStarsFrom_getElem w h _ _ _ _ 0 k hk hk2]
  simp only [Nat.zero_add]
  rfl

lemma journeyDistance_closed_form (w h : ℚ) (N k : ℕ) (hN : 0 < N) :
    journeyDistance w h (((N : ℚ) - (k : ℚ)) / (N : ℚ)) =
      60 + ((k : ℚ) / (N : ℚ)) * (maxDistance w h - 60) := by
  have hN0 : ((N : ℚ)) ≠ 0 := by positivity
  unfold journeyDistance minDistance
  field_simp
  try ring

/-- C3 (amended): provided the canvas is large enough that
`maxDistance = 0.4·min(width,height)` is at least `minDistance = 60`
(i.e. `min(width,height) ≥ 150`), the Euclidean distance from the canvas
center of a more recent journey star is at most that of a less recent one.
On smaller canvases the interpolation runs backwards and the ordering
reverses (see the counterexample). -/
theorem claim3_recency_monotone (w h : ℚ) (s : SnapshotData) (r : Rnd)
    (hmax : minDistance ≤ maxDistance w h)
    (i j : ℕ) (hij : i ≤ j) (hj : j < s.journeys.length) :
    euclidDist (centerPt w h) (starPos ((journeyStarsOf w h s r)[i]!)) ≤
      euclidDist (centerPt w h) (starPos ((journeyStarsOf w h s r)[j]!)) := by
  have hi : i < s.journeys.length := lt_of_le_of_lt hij hj
  have hN : 0 < s.journeys.length := by omega
  rw [journeyStarsOf_starPos w h s r i hi, journeyStarsOf_starPos w h s r j hj,
    euclidDist_centerPt_polarPos, euclidDist_centerPt_polarPos,
    journeyDistance_closed_form w h _ i hN,
    journeyDistance_closed_form w h _ j hN]
  have hq : (0 : ℚ) ≤ maxDistance w h - 60 := by
    have h60 : (60 : ℚ) ≤ maxDistance w h := hmax
    linarith
  have hNq : (0 : ℚ) < (s.journeys.length : ℚ) := by exact_mod_cast hN
  have hdiv : ((i : ℚ)) / (s.journeys.length : ℚ) ≤
      ((j : ℚ)) / (s.journeys.length : ℚ) := by
    gcongr
  have hdi : (0 : ℚ) ≤ 60 + ((i : ℚ) / (s.journeys.length : ℚ)) *
      (maxDistance w h - 60) := by positivity
  have hdj : (0 : ℚ) ≤ 60 + ((j : ℚ) / (s.journeys.length : ℚ)) *
      (maxDistance w h - 60) := by positivity
  have hmono : 60 + ((i : ℚ) / (s.journeys.length : ℚ)) *
      (maxDistance w h - 60) ≤
      60 + ((j : ℚ) / (s.journeys.length : ℚ)) * (maxDistance w h - 60) := by
    nlinarith [hdiv, hq]
  rw [abs_of_nonneg (by exact_mod_cast hdi), abs_of_nonneg (by exact_mod_cast hdj)]
  exact_mod_cast hmono

/-- C3 counterexample: on a 100×100 canvas, `maxDistance = 40 < 60`, so the
interpolation runs backwards: with two journeys the most recent star sits at
radial distance 60 from the center while the older one sits at 50, violating
the claimed ordering. -/
theorem claim3_counterexample :
    euclidDist (centerPt 100 100)
        (starPos ((journeyStarsOf 100 100 snap2 zeroRnd)[0]!)) >
      euclidDist (centerPt 100 100)
        (starPos ((journeyStarsOf 100 100 snap2 zeroRnd)[1]!)) := by
  have h0 : (0 : ℕ) < snap2.journeys.length := by simp [snap2]
  have h1 : (1 : ℕ) < snap2.journeys.length := by simp [snap2]
  rw [journeyStarsOf_starPos 100 100 snap2 zeroRnd 0 h0,
    journeyStarsOf_starPos 100 100 snap2 zeroRnd 1 h1,
    euclidDist_centerPt_polarPos, euclidDist_centerPt_polarPos]
  have hd0 : journeyDistance 100 100
      (((snap2.journeys.length : ℚ) - ((0 : ℕ) : ℚ)) /
        (snap2.journeys.length : ℚ)) = 60 := by
    norm_num [snap2, journeyDistance, minDistance, maxDistance]
  have hd1 : journeyDistance 100 100
      (((snap2.journeys.length : ℚ) - ((1 : ℕ) : ℚ)) /
        (snap2.journeys.length : ℚ)) = 50 := by
    norm_num [snap2, journeyDistance, minDistance, maxDistance]
  rw [hd0, hd1]
  norm_num

/-- Witness for C3 (amended): on a 400×400 canvas (`maxDistance = 160 ≥ 60`)
the star at input index 0 is no farther from the center than the star at
index 1. -/
theorem claim3_witness :
    minDistance ≤ maxDistance 400 400 ∧ (0 : ℕ) ≤ 1 ∧
        1 < snap2.journeys.length ∧
      euclidDist (centerPt 400 400)
          (starPos ((journeyStarsOf 400 400 snap2 zeroRnd)[0]!)) ≤
        euclidDist (centerPt 400 400)
          (starPos ((journeyStarsOf 400 400 snap2 zeroRnd)[1]!)) :=
  ⟨by norm_num [minDistance, maxDistance], by norm_num, by simp [snap2],
    claim3_recency_monotone 400 400 snap2 zeroRnd
      (by norm_num [minDistance, maxDistance]) 0 1 (by norm_num)
      (by simp [snap2])⟩

lemma assignTarget_of_seed (w h : ℚ) (all : List Star) (i : ℕ) (st : Star)
    (hst : st.kind = .seed) : assignTarget w h all i st = st := by
  unfold assignTarget
  rw [hst]
  simp

lemma initStars_seed_star (w h : ℚ) (s : SnapshotData) (r : Rnd)
    (hshow : showSeeds s = true) (i : ℕ) (hi : i < s.seed_artworks.length) :
    (initStars w h s r).2[i]! =
      createSeedStar w h i s.seed_artworks.length s.seed_artworks[i]
        (r.seedPulse i) (r.seedShimmer i) := by
  have hseeds_len : (seedStarsFrom w h s.seed_artworks.length r.seedPulse
      r.seedShimmer 0 s.seed_artworks).length = s.seed_artworks.length :=
    seedStarsFrom_length w h _ _ _ _ 0
  have hstars : (initStars w h s r).2 =
      setTargetsFrom w h
        (seedStarsFrom w h s.seed_artworks.length r.seedPulse r.seedShimmer 0
            s.seed_artworks ++
          journeyStarsFrom w h s.journeys.length r.jitter r.journeyPulse 0
            s.journeys)
        0
        (seedStarsFrom w h s.seed_artworks.length r.seedPulse r.seedShimmer 0
            s.seed_artworks ++
          journeyStarsFrom w h s.journeys.length r.jitter r.journeyPulse 0
            s.journeys) := by
    simp only [initStars, setTargets, hshow, if_true]
  have hi_seed : i < (seedStarsFrom w h s.seed_artworks.length r.seedPulse
      r.seedShimmer 0 s.seed_artworks).length := by
    rw [hseeds_len]; exact hi
  have hi_all : i < (seedStarsFrom w h s.seed_artworks.length r.seedPulse
      r.seedShimmer 0 s.seed_artworks ++
        journeyStarsFrom w h s.journeys.length r.jitter r.journeyPulse 0
          s.journeys).length := by
    rw [List.length_append]
    omega
  have hi3 : i < (setTargetsFrom w h
      (seedStarsFrom w h s.seed_artworks.length r.seedPulse r.seedShimmer 0
          s.seed_artworks ++
        journeyStarsFrom w h s.journeys.length r.jitter r.journeyPulse 0
          s.journeys)
      0
      (seedStarsFrom w h s.seed_artworks.length r.seedPulse r.seedShimmer 0
          s.seed_artworks ++
        journeyStarsFrom w h s.journeys.length r.jitter r.journeyPulse 0
          s.journeys)).length := by
    rw [setTargetsFrom_length]
    exact hi_all
  have hi2 : i < (initStars w h s r).2.length := by
    rw [hstars, setTargetsFrom_length]
    exact hi_all
  have hgoal := setTargetsFrom_getElem w h
    (seedStarsFrom w h s.seed_artworks.length r.seedPulse r.seedShimmer 0
        s.seed_artworks ++
      journeyStarsFrom w h s.journeys.length r.jitter r.journeyPulse 0
        s.journeys)
    (seedStarsFrom w h s.seed_artworks.length r.seedPulse r.seedShimmer 0
        s.seed_artworks ++
      journeyStarsFrom w h s.journeys.length r.jitter r.journeyPulse 0
        s.journeys)
    0 i hi_all hi3
  have happ : (seedStarsFrom w h s.seed_artworks.length r.seedPulse
      r.seedShimmer 0 s.seed_artworks ++
        journeyStarsFrom w h s.journeys.length r.jitter r.journeyPulse 0
          s.journeys)[i] =
      (seedStarsFrom w h s.seed_artworks.length r.seedPulse r.seedShimmer 0
        s.seed_artworks)[i] :=
    List.getElem_append_left hi_seed
  have hseed_get := seedStarsFrom_getElem w h s.seed_artworks.length
    r.seedPulse r.seedShimmer s.seed_artworks 0 i hi hi_seed
  have hkind : ((seedStarsFrom w h s.seed_artworks.length r.seedPulse
      r.seedShimmer 0 s.seed_artworks)[i]).kind = .seed := by
    rw [hseed_get]
    rfl
  have hstep1 : (initStars w h s r).2[i] = (setTargetsFrom w h
      (seedStarsFrom w h s.seed_artworks.length r.seedPulse r.seedShimmer 0
          s.seed_artworks ++
        journeyStarsFrom w h s.journeys.length r.jitter r.journeyPulse 0
          s.journeys)
      0
      (seedStarsFrom w h s.seed_artworks.length r.seedPulse r.seedShimmer 0
          s.seed_artworks ++
        journeyStarsFrom w h s.journeys.length r.jitter r.journeyPulse 0
          s.journeys))[i] := by
    congr 1
  rw [getElem!_pos (initStars w h s r).2 i hi2, hstep1, hgoal, happ,
    assignTarget_of_seed w h _ _ _ hkind, hseed_get, Nat.zero_add]

/-- C4: when `showSeeds` holds, the `i`-th of the `n` seed stars is a gold
seed star placed on the circle of radius `seedDist = 0.25·min(w,h)` around
the canvas center at angle `2π·i/n`; for `n = 4` the angles are multiples of
90 degrees. -/
theorem claim4_seed_layout (w h : ℚ) (s : SnapshotData) (r : Rnd)
    (hw : 0 ≤ w) (hh : 0 ≤ h) (hshow : showSeeds s = true)
    (i : ℕ) (hi : i < s.seed_artworks.length) :
    ((initStars w h s r).2[i]!).kind = .seed ∧
      ((initStars w h s r).2[i]!).color = "#ffd700" ∧
      starPos ((initStars w h s r).2[i]!) =
        polarPos (w / 2) (h / 2) (seedAngle i s.seed_artworks.length)
          (seedDist w h) ∧
      euclidDist (centerPt w h) (starPos ((initStars w h s r).2[i]!)) =
        ((seedDist w h : ℚ) : ℝ) ∧
      (seedAngle i s.seed_artworks.length).toReal =
        2 * Real.pi * (i : ℝ) / (s.seed_artworks.length : ℝ) ∧
      (s.seed_artworks.length = 4 →
        (seedAngle i s.seed_artworks.length).toReal =
          (i : ℝ) * (Real.pi / 2)) := by
  have hst := initStars_seed_star w h s r hshow i hi
  have hmin : (0 : ℚ) ≤ min w h := le_min hw hh
  have hdist : (0 : ℚ) ≤ seedDist w h := by
    unfold seedDist
    positivity
  refine ⟨?_, ?_, ?_, ?_, ?_, ?_⟩
  · rw [hst]; rfl
  · rw [hst]; rfl
  · rw [hst]; rfl
  · rw [hst]
    have hpos : starPos (createSeedStar w h i s.seed_artworks.length
        s.seed_artworks[i] (r.seedPulse i) (r.seedShimmer i)) =
        polarPos (w / 2) (h / 2) (seedAngle i s.seed_artworks.length)
          (seedDist w h) := rfl
    rw [hpos, euclidDist_centerPt_polarPos]
    rw [abs_of_nonneg (by exact_mod_cast hdist)]
  · unfold seedAngle Angle.toReal
    push_cast
    ring
  · intro h4
    rw [h4]
    unfold seedAngle Angle.toReal
    push_cast
    ring

/-- Witness for C4: in a snapshot with four seeds and no journeys, seed
star 1 is gold, sits on the seed circle, and its angle is `1·(π/2)`. -/
theorem claim4_witness :
    (0 : ℚ) ≤ 400 ∧ showSeeds snapSeeds = true ∧
        1 < snapSeeds.seed_artworks.length ∧
      (((initStars 400 400 snapSeeds zeroRnd).2[1]!).kind = .seed ∧
        ((initStars 400 400 snapSeeds zeroRnd).2[1]!).color = "#ffd700" ∧
        starPos ((initStars 400 400 snapSeeds zeroRnd).2[1]!) =
          polarPos (400 / 2) (400 / 2)
            (seedAngle 1 snapSeeds.seed_artworks.length) (seedDist 400 400) ∧
        euclidDist (centerPt 400 400)
            (starPos ((initStars 400 400 snapSeeds zeroRnd).2[1]!)) =
          ((seedDist 400 400 : ℚ) : ℝ) ∧
        (seedAngle 1 snapSeeds.seed_artworks.length).toReal =
          2 * Real.pi * ((1 : ℕ) : ℝ) / (snapSeeds.seed_artworks.length : ℝ) ∧
        (snapSeeds.seed_artworks.length = 4 →
          (seedAngle 1 snapSeeds.seed_artworks.length).toReal =
            ((1 : ℕ) : ℝ) * (Real.pi / 2))) :=
  ⟨by norm_num, by decide, by simp [snapSeeds],
    claim4_seed_layout 400 400 snapSeeds zeroRnd (by norm_num) (by norm_num)
      (by decide) 1 (by simp [snapSeeds])⟩

/-- The star array of `initializeStars` before `organizeConstellations`
runs: seed stars (when shown) followed by journey stars. -/
noncomputable def preStars (w h : ℚ) (s : SnapshotData) (r : Rnd) :
    List Star :=
  (if showSeeds s then
    seedStarsFrom w h s.seed_artworks.length r.seedPulse r.seedShimmer 0
      s.seed_artworks
  else []) ++
    journeyStarsFrom w h s.journeys.length r.jitter r.journeyPulse 0
      s.journeys

lemma initStars_eq_setTargets (w h : ℚ) (s : SnapshotData) (r : Rnd) :
    (initStars w h s r).2 =
      setTargetsFrom w h (preStars w h s r) 0 (preStars w h s r) := by
  simp only [initStars, setTargets, preStars]

lemma initStars_length (w h : ℚ) (s : SnapshotData) (r : Rnd) :
    (initStars w h s r).2.length = (preStars w h s r).length := by
  rw [initStars_eq_setTargets, setTargetsFrom_length]

lemma preStars_length (w h : ℚ) (s : SnapshotData) (r : Rnd) :
    (preStars w h s r).length =
      (if showSeeds s then s.seed_artworks.length else 0) +
        s.journeys.length := by
  unfold preStars
  rw [List.length_append, journeyStarsFrom_length]
  split
  · rw [seedStarsFrom_length]
  · rfl

lemma initStars_getElem_assign (w h : ℚ) (s : SnapshotData) (r : Rnd)
    (i : ℕ) (hi : i < (preStars w h s r).length) :
    (initStars w h s r).2[i]! =
      assignTarget w h (preStars w h s r) i (preStars w h s r)[i] := by
  have hi3 : i < (setTargetsFrom w h (preStars w h s r) 0
      (preStars w h s r)).length := by
    rw [setTargetsFrom_length]; exact hi
  have hi2 : i < (initStars w h s r).2.length := by
    rw [initStars_length]; exact hi
  have hstep1 : (initStars w h s r).2[i] =
      (setTargetsFrom w h (preStars w h s r) 0 (preStars w h s r))[i] := by
    have := initStars_eq_setTargets w h s r
    congr 1
  rw [getElem!_pos (initStars w h s r).2 i hi2, hstep1,
    setTargetsFrom_getElem w h _ _ 0 i hi hi3, Nat.zero_add]

lemma countP_take_lt {α : Type} (p : α → Bool) (l : List α) (i : ℕ)
    (hi : i < l.length) (hp : p l[i] = true) :
    (l.take i).countP p < l.countP p := by
  conv_rhs => rw [← List.take_append_drop i l]
  rw [List.countP_append]
  have hdrop : l.drop i = l[i] :: l.drop (i + 1) :=
    (List.getElem_cons_drop l i hi).symm
  rw [hdrop, List.countP_cons, hp]
  norm_num

lemma journeyStarsFrom_mem (w h : ℚ) (n : ℕ) (rj rp : ℕ → ℚ)
    (l : List JourneyRecord) :
    ∀ i st, st ∈ journeyStarsFrom w h n rj rp i l →
      ∃ rec ∈ l, ∃ k, st = createJourneyStar w h n k rec (rj k) (rp k) := by
  induction l with
  | nil => intro i st hst; simp [journeyStarsFrom] at hst
  | cons a l ih =>
      intro i st hst
      simp only [journeyStarsFrom, List.mem_cons] at hst
      rcases hst with rfl | hst
      · exact ⟨a, List.mem_cons_self a l, i, rfl⟩
      · obtain ⟨rec, hrec, k, hk⟩ := ih (i + 1) st hst
        exact ⟨rec, List.mem_cons_of_mem a hrec, k, hk⟩

lemma preStars_journey_stage (w h : ℚ) (s : SnapshotData) (r : Rnd) :
    ∀ st ∈ preStars w h s r, st.kind = .journey →
      ∃ rec ∈ s.journeys, st.stage = rec.stage := by
  intro st hmem hk
  unfold preStars at hmem
  rw [List.mem_append] at hmem
  rcases hmem with hmem | hmem
  · exfalso
    split at hmem
    · rw [seedStarsFrom_kind w h _ _ _ _ 0 st hmem] at hk
      exact absurd hk (by decide)
    · simp at hmem
  · obtain ⟨rec, hrec, k, hk2⟩ := journeyStarsFrom_mem w h _ _ _ _ 0 st hmem
    refine ⟨rec, hrec, ?_⟩
    rw [hk2]
    rfl

/-- C5 (amended): for well-formed snapshots (stages in 1..5) every journey
star's regrouped target angle `organizeAngle` lies within `π/6` (half the
60-degree spread of `organizeConstellations`) of its stage's base angle
`(stage-1)·2π/5`.  This is wider than the claimed jitter bound
`±0.15·(2π/5) ≈ ±0.19`, which the layout does not respect (see the
counterexample). -/
theorem claim5_sector_bound (w h : ℚ) (s : SnapshotData) (r : Rnd)
    (hstage : ∀ j ∈ s.journeys, 1 ≤ j.stage ∧ j.stage ≤ 5)
    (i : ℕ) (hi : i < (initStars w h s r).2.length)
    (hkind : ((initStars w h s r).2[i]!).kind = .journey) :
    ∃ g m : ℕ, g < m ∧
      ((initStars w h s r).2[i]!).target =
        some (polarPos (w / 2) (h / 2)
          (organizeAngle ((initStars w h s r).2[i]!).stage g m)
          (journeyDistance w h ((initStars w h s r).2[i]!).recency)) ∧
      |(organizeAngle ((initStars w h s r).2[i]!).stage g m).toReal -
          ((((initStars w h s r).2[i]!).stage : ℝ) - 1) *
            (2 * Real.pi) / 5| ≤ Real.pi / 6 := by
  have hipre : i < (preStars w h s r).length := by
    rw [← initStars_length]; exact hi
  have hassign := initStars_getElem_assign w h s r i hipre
  have hkpre : (preStars w h s r)[i].kind = .journey := by
    have := assignTarget_kind w h (preStars w h s r) i (preStars w h s r)[i]
    rw [← this, ← hassign]
    exact hkind
  have hmem : (preStars w h s r)[i] ∈ preStars w h s r := List.getElem_mem hipre
  have hstage_i : 1 ≤ (preStars w h s r)[i].stage ∧
      (preStars w h s r)[i].stage ≤ 5 := by
    obtain ⟨rec, hrec, hstg⟩ :=
      preStars_journey_stage w h s r _ hmem hkpre
    rw [hstg]
    exact hstage rec hrec
  have hcond : ((preStars w h s r)[i].kind == StarKind.journey &&
      (preStars w h s r)[i].stage != 0) = true := by
    rw [hkpre]
    simp only [Bool.and_eq_true, beq_self_eq_true, true_and, bne_iff_ne]
    omega
  have hassign2 : assignTarget w h (preStars w h s r) i (preStars w h s r)[i] =
      { (preStars w h s r)[i] with
          target := some (polarPos (w / 2) (h / 2)
            (organizeAngle (preStars w h s r)[i].stage
              (((preStars w h s r).take i).countP
                (hasStage (preStars w h s r)[i].stage))
              ((preStars w h s r).countP
                (hasStage (preStars w h s r)[i].stage)))
            (journeyDistance w h (preStars w h s r)[i].recency)) } := by
    unfold assignTarget
    rw [if_pos hcond]
  refine ⟨((preStars w h s r).take i).countP
      (hasStage (preStars w h s r)[i].stage),
    (preStars w h s r).countP (hasStage (preStars w h s r)[i].stage),
    ?_, ?_, ?_⟩
  · refine countP_take_lt _ _ i hipre ?_
    unfold hasStage
    rw [hkpre]
    simp
  · rw [hassign, hassign2]
  · rw [hassign, hassign2]
    set g := ((preStars w h s r).take i).countP
      (hasStage (preStars w h s r)[i].stage) with hg
    set m := (preStars w h s r).countP
      (hasStage (preStars w h s r)[i].stage) with hm
    have hgm : g < m := by
      refine countP_take_lt _ _ i hipre ?_
      unfold hasStage
      rw [hkpre]
      simp
    have hm0 : (0 : ℝ) < (m : ℝ) := by
      have : 0 < m := lt_of_le_of_lt (Nat.zero_le g) hgm
      exact_mod_cast this
    have hratio0 : (0 : ℝ) ≤ (g : ℝ) / (m : ℝ) := by positivity
    have hratio1 : (g : ℝ) / (m : ℝ) ≤ 1 := by
      rw [div_le_one hm0]
      exact_mod_cast le_of_lt hgm
    have htoReal : (organizeAngle (preStars w h s r)[i].stage g m).toReal -
        (((preStars w h s r)[i].stage : ℝ) - 1) * (2 * Real.pi) / 5 =
        ((g : ℝ) / (m : ℝ) - 1 / 2) * (1 / 3) * Real.pi := by
      unfold organizeAngle Angle.toReal
      push_cast
      ring
    rw [htoReal, abs_mul, abs_of_nonneg Real.pi_pos.le]
    have habs : |((g : ℝ) / (m : ℝ) - 1 / 2) * (1 / 3)| ≤ 1 / 6 := by
      rw [abs_le]
      constructor <;> nlinarith
    nlinarith [Real.pi_pos, habs, abs_nonneg (((g : ℝ) / (m : ℝ) - 1 / 2) * (1 / 3))]

lemma snap2_preStars (w h : ℚ) (r : Rnd) :
    preStars w h snap2 r =
      [createJourneyStar w h 2 0 {} (r.jitter 0) (r.journeyPulse 0),
        createJourneyStar w h 2 1 {} (r.jitter 1) (r.journeyPulse 1)] := by
  unfold preStars
  simp [snap2, showSeeds, seedStarsFrom, journeyStarsFrom]

lemma snap2_pre_len (w h : ℚ) (r : Rnd) :
    (preStars w h snap2 r).length = 2 := by
  rw [snap2_preStars]
  rfl

lemma snap2_pre_get0 (w h : ℚ) (r : Rnd)
    (hlt : 0 < (preStars w h snap2 r).length) :
    (preStars w h snap2 r)[0] =
      createJourneyStar w h 2 0 {} (r.jitter 0) (r.journeyPulse 0) := by
  have hpre := snap2_preStars w h r
  have h2 : (preStars w h snap2 r)[0] =
      ([createJourneyStar w h 2 0 {} (r.jitter 0) (r.journeyPulse 0),
        createJourneyStar w h 2 1 {} (r.jitter 1) (r.journeyPulse 1)] :
          List Star)[0] := by
    congr 1
  simpa using h2

/-- C5 counterexample: with two stage-1 journeys on a 400×400 canvas, the
first journey star's target is placed at sector offset
`(0/2 - 0.5)·(π/3) = -π/6`, which lies below the claimed lower bound
`(stage-1)·2π/5 - 0.15·(2π/5) = -3π/50` of its sector. -/
theorem claim5_counterexample :
    ((initStars 400 400 snap2 zeroRnd).2[0]!).target =
        some (polarPos (400 / 2) (400 / 2) (organizeAngle 1 0 2)
          (journeyDistance 400 400 1)) ∧
      (organizeAngle 1 0 2).toReal <
        ((1 : ℝ) - 1) * (2 * Real.pi) / 5 - 3 / 20 * (2 * Real.pi / 5) := by
  have hlt : 0 < (preStars 400 400 snap2 zeroRnd).length := by
    rw [snap2_pre_len]
    norm_num
  constructor
  · rw [initStars_getElem_assign 400 400 snap2 zeroRnd 0 hlt,
      snap2_pre_get0 400 400 zeroRnd hlt]
    unfold assignTarget
    rw [snap2_preStars 400 400 zeroRnd]
    norm_num [createJourneyStar, hasStage, List.countP_cons, zeroRnd,
      organizeAngle, getAngleForStage, getStageColor]
  · unfold organizeAngle Angle.toReal
    push_cast
    nlinarith [Real.pi_pos]

/-- Witness for C5 (amended): in the two-journey snapshot the first journey
star is a journey star whose target satisfies the amended sector bound. -/
theorem claim5_witness :
    (∀ j ∈ snap2.journeys, 1 ≤ j.stage ∧ j.stage ≤ 5) ∧
        0 < (initStars 400 400 snap2 zeroRnd).2.length ∧
        ((initStars 400 400 snap2 zeroRnd).2[0]!).kind = .journey ∧
      (∃ g m : ℕ, g < m ∧
        ((initStars 400 400 snap2 zeroRnd).2[0]!).target =
          some (polarPos (400 / 2) (400 / 2)
            (organizeAngle ((initStars 400 400 snap2 zeroRnd).2[0]!).stage g m)
            (journeyDistance 400 400
              ((initStars 400 400 snap2 zeroRnd).2[0]!).recency)) ∧
        |(organizeAngle ((initStars 400 400 snap2 zeroRnd).2[0]!).stage
              g m).toReal -
            ((((initStars 400 400 snap2 zeroRnd).2[0]!).stage : ℝ) - 1) *
              (2 * Real.pi) / 5| ≤ Real.pi / 6) := by
  have hstage : ∀ j ∈ snap2.journeys, 1 ≤ j.stage ∧ j.stage ≤ 5 := by
    intro j hj
    have : j = ({} : JourneyRecord) ∨ j = ({} : JourneyRecord) := by
      simpa [snap2] using hj
    rcases this with rfl | rfl <;> exact ⟨by decide, by decide⟩
  have hlt : 0 < (preStars 400 400 snap2 zeroRnd).length := by
    rw [snap2_pre_len]
    norm_num
  have hi : 0 < (initStars 400 400 snap2 zeroRnd).2.length := by
    rw [initStars_length, snap2_pre_len]
    norm_num
  have hkind : ((initStars 400 400 snap2 zeroRnd).2[0]!).kind = .journey := by
    rw [initStars_getElem_assign 400 400 snap2 zeroRnd 0 hlt, assignTarget_kind,
      snap2_pre_get0 400 400 zeroRnd hlt]
    rfl
  exact ⟨hstage, hi, hkind,
    claim5_sector_bound 400 400 snap2 zeroRnd hstage 0 hi hkind⟩

/-- The position-easing step at the end of `drawStar`:
`star.x += (star.targetX - star.x) * 0.02` (and likewise for `y`).
`t` is the target position, `p` the current position. -/
noncomputable def easePos (t p : ℝ × ℝ) : ℝ × ℝ :=
  (p.1 + (t.1 - p.1) * (1 / 50), p.2 + (t.2 - p.2) * (1 / 50))

/-- The state mutation of `drawStar` on one star per frame: advance `pulse`
by `0.02`, recompute `size = baseSize · (1 + sin(pulse)·0.15)`, advance
`shimmer` by `0.01` for seed stars, and ease the position toward
`targetX/targetY` when a target is defined.  The painting calls have no
state effect and are omitted. -/
noncomputable def drawStarUpdate (st : Star) : Star :=
  let pulse := st.pulse + 1 / 50
  let size := (st.baseSize : ℝ) * (1 + Real.sin pulse * (3 / 20))
  let shimmer := if st.kind == .seed then st.shimmer + 1 / 100 else st.shimmer
  match st.target with
  | none => { st with pulse := pulse, size := size, shimmer := shimmer }
  | some t =>
      let p := easePos t (st.x, st.y)
      { st with
          pulse := pulse
          size := size
          shimmer := shimmer
          x := p.1
          y := p.2 }

/-- The state mutation of `drawCompanionStar` per frame: `pulse := time`,
`size = baseSize · (1 + sin(pulse)·0.1)`; the companion's position is never
written. -/
noncomputable def drawCompanionStarUpdate (t : ℝ) (st : Star) : Star :=
  { st with pulse := t, size := (st.baseSize : ℝ) * (1 + Real.sin t * (1 / 10)) }

/-- The engine state: canvas size, the animation clock `this.time`, the
companion star and the star array. -/
structure EngineState where
  w : ℚ
  h : ℚ
  time : ℝ
  companion : Star
  stars : List Star

/-- The state after the constructor ran `resize` + `initializeStars`
(before the first `animate` frame). -/
noncomputable def engineInit (w h : ℚ) (s : SnapshotData) (r : Rnd) :
    EngineState :=
  { w := w, h := h, time := 0,
    companion := (initStars w h s r).1,
    stars := (initStars w h s r).2 }

/-- One `animate` frame: advance the clock by `0.01`, run the companion
update, then `drawStar` on every star. -/
noncomputable def frameStep (e : EngineState) : EngineState :=
  { e with
      time := e.time + 1 / 100,
      companion := drawCompanionStarUpdate (e.time + 1 / 100) e.companion,
      stars := e.stars.map drawStarUpdate }

/-- `resize`: recompute canvas dimensions (and hence center); star
positions are not touched. -/
def resizeEngine (e : EngineState) (w h : ℚ) : EngineState :=
  { e with w := w, h := h }

lemma easePos_sub_fst (t p : ℝ × ℝ) :
    t.1 - (easePos t p).1 = (49 / 50) * (t.1 - p.1) := by
  unfold easePos
  ring

lemma easePos_sub_snd (t p : ℝ × ℝ) :
    t.2 - (easePos t p).2 = (49 / 50) * (t.2 - p.2) := by
  unfold easePos
  ring

lemma easePos_iter_sub (t p : ℝ × ℝ) (n : ℕ) :
    t.1 - ((easePos t)^[n] p).1 = (49 / 50) ^ n * (t.1 - p.1) ∧
      t.2 - ((easePos t)^[n] p).2 = (49 / 50) ^ n * (t.2 - p.2) := by
  induction n with
  | zero => simp
  | succ n ih =>
      rw [Function.iterate_succ_apply']
      constructor
      · rw [easePos_sub_fst, ih.1, pow_succ]
        ring
      · rw [easePos_sub_snd, ih.2, pow_succ]
        ring

lemma euclidDist_easePos_iter (t p : ℝ × ℝ) (n : ℕ) :
    euclidDist t ((easePos t)^[n] p) = (49 / 50) ^ n * euclidDist t p := by
  unfold euclidDist
  rw [(easePos_iter_sub t p n).1, (easePos_iter_sub t p n).2]
  have h1 : ((49 / 50 : ℝ) ^ n * (t.1 - p.1)) ^ 2 +
      ((49 / 50 : ℝ) ^ n * (t.2 - p.2)) ^ 2 =
      ((49 / 50 : ℝ) ^ n) ^ 2 * ((t.1 - p.1) ^ 2 + (t.2 - p.2) ^ 2) := by
    ring
  rw [h1, Real.sqrt_mul (sq_nonneg _), Real.sqrt_sq (by positivity)]

/-- C6: iterating the easing step from any start strictly decreases the
Euclidean distance to the target whenever it is nonzero, never flips the
sign of `target - position` in either coordinate (no overshoot), and for
every `ε > 0` reaches distance `< ε` after a bounded number of steps. -/
theorem claim6_easing (t p : ℝ × ℝ) (ε : ℝ) (hε : 0 < ε) :
    (∀ n, euclidDist t ((easePos t)^[n] p) ≠ 0 →
      euclidDist t ((easePos t)^[n + 1] p) <
        euclidDist t ((easePos t)^[n] p)) ∧
      (∀ n, 0 ≤ (t.1 - ((easePos t)^[n] p).1) * (t.1 - p.1) ∧
        0 ≤ (t.2 - ((easePos t)^[n] p).2) * (t.2 - p.2)) ∧
      (∃ N, ∀ n, N ≤ n → euclidDist t ((easePos t)^[n] p) < ε) := by
  have hd0 : 0 ≤ euclidDist t p := Real.sqrt_nonneg _
  refine ⟨?_, ?_, ?_⟩
  · intro n hn
    rw [euclidDist_easePos_iter] at hn ⊢
    rw [euclidDist_easePos_iter]
    have hdpos : 0 < euclidDist t p := by
      rcases lt_or_eq_of_le hd0 with h | h
      · exact h
      · exact absurd (by rw [← h, mul_zero]) hn
    have hpow : ((49 : ℝ) / 50) ^ (n + 1) < (49 / 50) ^ n :=
      pow_lt_pow_right_of_lt_one₀ (by norm_num) (by norm_num) (Nat.lt_succ_self n)
    nlinarith
  · intro n
    constructor
    · rw [(easePos_iter_sub t p n).1]
      have : (0 : ℝ) ≤ (49 / 50 : ℝ) ^ n := by positivity
      nlinarith [sq_nonneg (t.1 - p.1)]
    · rw [(easePos_iter_sub t p n).2]
      have : (0 : ℝ) ≤ (49 / 50 : ℝ) ^ n := by positivity
      nlinarith [sq_nonneg (t.2 - p.2)]
  · rcases eq_or_lt_of_le hd0 with h0 | h0
    · refine ⟨0, fun n _ => ?_⟩
      rw [euclidDist_easePos_iter, ← h0, mul_zero]
      exact hε
    · have hfrac : ε / euclidDist t p > 0 := by positivity
      obtain ⟨N, hN⟩ := exists_pow_lt_of_lt_one hfrac (by norm_num :
        (49 : ℝ) / 50 < 1)
      refine ⟨N, fun n hn => ?_⟩
      rw [euclidDist_easePos_iter]
      have hle : ((49 : ℝ) / 50) ^ n ≤ (49 / 50) ^ N :=
        pow_le_pow_of_le_one (by norm_num) (by norm_num) hn
      have hNd : ((49 : ℝ) / 50) ^ N * euclidDist t p < ε :=
        (lt_div_iff₀ h0).mp hN
      have hmul : ((49 : ℝ) / 50) ^ n * euclidDist t p ≤
          (49 / 50) ^ N * euclidDist t p :=
        mul_le_mul_of_nonneg_right hle hd0
      linarith

/-- Witness for C6: at target `(1, 0)` from start `(0, 0)` with `ε = 1`. -/
theorem claim6_witness :
    (0 : ℝ) < 1 ∧
      ((∀ n, euclidDist (1, 0) ((easePos (1, 0))^[n] (0, 0)) ≠ 0 →
        euclidDist (1, 0) ((easePos (1, 0))^[n + 1] (0, 0)) <
          euclidDist (1, 0) ((easePos (1, 0))^[n] (0, 0))) ∧
      (∀ n, 0 ≤ ((1 : ℝ) - ((easePos ((1 : ℝ), (0 : ℝ)))^[n] (0, 0)).1) *
            ((1 : ℝ) - (0 : ℝ)) ∧
        0 ≤ ((0 : ℝ) - ((easePos ((1 : ℝ), (0 : ℝ)))^[n] (0, 0)).2) *
            ((0 : ℝ) - (0 : ℝ))) ∧
      (∃ N, ∀ n, N ≤ n →
        euclidDist (1, 0) ((easePos (1, 0))^[n] (0, 0)) < 1)) :=
  ⟨by norm_num, claim6_easing ((1 : ℝ), (0 : ℝ)) ((0 : ℝ), (0 : ℝ)) 1
    (by norm_num)⟩

lemma drawStarUpdate_kind (st : Star) :
    (drawStarUpdate st).kind = st.kind := by
  unfold drawStarUpdate
  match h : st.target with
  | none => simp [h]
  | some t => simp [h]

lemma drawStarUpdate_target (st : Star) :
    (drawStarUpdate st).target = st.target := by
  unfold drawStarUpdate
  match h : st.target with
  | none => simp [h]
  | some t => simp [h]

lemma drawStarUpdate_pos_of_target_none (st : Star) (h : st.target = none) :
    (drawStarUpdate st).x = st.x ∧ (drawStarUpdate st).y = st.y := by
  unfold drawStarUpdate
  rw [h]
  exact ⟨rfl, rfl⟩

lemma drawStarUpdate_iter_fix (st : Star) (h : st.target = none) (n : ℕ) :
    (drawStarUpdate^[n] st).x = st.x ∧ (drawStarUpdate^[n] st).y = st.y ∧
      (drawStarUpdate^[n] st).target = none := by
  induction n with
  | zero => exact ⟨rfl, rfl, h⟩
  | succ n ih =>
      rw [Function.iterate_succ_apply']
      obtain ⟨hx, hy, ht⟩ := ih
      obtain ⟨hx2, hy2⟩ := drawStarUpdate_pos_of_target_none _ ht
      refine ⟨hx2.trans hx, hy2.trans hy, ?_⟩
      rw [drawStarUpdate_target]
      exact ht

lemma drawCompanionStarUpdate_pos (t : ℝ) (st : Star) :
    (drawCompanionStarUpdate t st).x = st.x ∧
      (drawCompanionStarUpdate t st).y = st.y :=
  ⟨rfl, rfl⟩

lemma frameStep_iter_companion_pos (e : EngineState) (n : ℕ) :
    (frameStep^[n] e).companion.x = e.companion.x ∧
      (frameStep^[n] e).companion.y = e.companion.y := by
  induction n with
  | zero => exact ⟨rfl, rfl⟩
  | succ n ih =>
      rw [Function.iterate_succ_apply']
      exact ⟨ih.1, ih.2⟩

lemma frameStep_iter_stars (e : EngineState) (n : ℕ) :
    (frameStep^[n] e).stars = e.stars.map (drawStarUpdate^[n]) := by
  induction n with
  | zero => simp
  | succ n ih =>
      rw [Function.iterate_succ_apply']
      show ((frameStep^[n] e).stars).map drawStarUpdate = _
      rw [ih, List.map_map, ← Function.iterate_succ']

lemma seedStarsFrom_target (w h : ℚ) (n : ℕ) (rp rs : ℕ → ℚ)
    (l : List SeedRecord) :
    ∀ i, ∀ st ∈ seedStarsFrom w h n rp rs i l, st.target = none := by
  induction l with
  | nil => intro i st hst; simp [seedStarsFrom] at hst
  | cons a l ih =>
      intro i st hst
      simp only [seedStarsFrom, List.mem_cons] at hst
      rcases hst with rfl | hst
      · rfl
      · exact ih (i + 1) st hst

lemma preStars_seed_target (w h : ℚ) (s : SnapshotData) (r : Rnd) :
    ∀ st ∈ preStars w h s r, st.kind = .seed → st.target = none := by
  intro st hmem hk
  unfold preStars at hmem
  rw [List.mem_append] at hmem
  rcases hmem with hmem | hmem
  · split at hmem
    · exact seedStarsFrom_target w h _ _ _ _ 0 st hmem
    · simp at hmem
  · rw [journeyStarsFrom_kind w h _ _ _ _ 0 st hmem] at hk
    exact absurd hk (by decide)

lemma initStars_seed_fix (w h : ℚ) (s : SnapshotData) (r : Rnd) (i : ℕ)
    (hi : i < (initStars w h s r).2.length)
    (hk : ((initStars w h s r).2[i]!).kind = .seed) :
    ((initStars w h s r).2[i]!).target = none := by
  have hipre : i < (preStars w h s r).length := by
    rw [← initStars_length]; exact hi
  have hassign := initStars_getElem_assign w h s r i hipre
  have hkpre : (preStars w h s r)[i].kind = .seed := by
    have := assignTarget_kind w h (preStars w h s r) i (preStars w h s r)[i]
    rw [← this, ← hassign]
    exact hk
  have heq : (initStars w h s r).2[i]! = (preStars w h s r)[i] := by
    rw [hassign]
    exact assignTarget_of_seed w h _ _ _ hkpre
  rw [heq]
  exact preStars_seed_target w h s r _ (List.getElem_mem hipre) hkpre

/-- C10: the per-frame update moves journey stars only: for any number of
frames, the companion star's position and every seed star's position are
unchanged from their layout values (easing applies only to stars with a
defined target, and seed stars have none), and `resize` rewrites only the
canvas dimensions, not star state. -/
theorem claim10_frame_fixpoints (w h : ℚ) (s : SnapshotData) (r : Rnd)
    (n : ℕ) (w2 h2 : ℚ) :
    ((frameStep^[n] (engineInit w h s r)).companion.x =
        (engineInit w h s r).companion.x ∧
      (frameStep^[n] (engineInit w h s r)).companion.y =
        (engineInit w h s r).companion.y) ∧
      (∀ i, i < (engineInit w h s r).stars.length →
        ((engineInit w h s r).stars[i]!).kind = .seed →
        ((frameStep^[n] (engineInit w h s r)).stars[i]!).x =
            ((engineInit w h s r).stars[i]!).x ∧
          ((frameStep^[n] (engineInit w h s r)).stars[i]!).y =
            ((engineInit w h s r).stars[i]!).y) ∧
      (resizeEngine (frameStep^[n] (engineInit w h s r)) w2 h2).stars =
        (frameStep^[n] (engineInit w h s r)).stars ∧
      (resizeEngine (frameStep^[n] (engineInit w h s r)) w2 h2).companion =
        (frameStep^[n] (engineInit w h s r)).companion := by
  refine ⟨frameStep_iter_companion_pos _ n, ?_, rfl, rfl⟩
  intro i hi hk
  have hi0 : i < (initStars w h s r).2.length := hi
  have htgt : ((initStars w h s r).2[i]!).target = none :=
    initStars_seed_fix w h s r i hi0 hk
  have hmap := frameStep_iter_stars (engineInit w h s r) n
  have hin : i < ((engineInit w h s r).stars.map (drawStarUpdate^[n])).length := by
    rw [List.length_map]
    exact hi
  have hiter : i < (frameStep^[n] (engineInit w h s r)).stars.length := by
    rw [hmap, List.length_map]
    exact hi
  have hstep : (frameStep^[n] (engineInit w h s r)).stars[i] =
      ((engineInit w h s r).stars.map (drawStarUpdate^[n]))[i] := by
    congr 1
  have hget : (frameStep^[n] (engineInit w h s r)).stars[i]! =
      drawStarUpdate^[n] ((engineInit w h s r).stars[i]!) := by
    rw [getElem!_pos (frameStep^[n] (engineInit w h s r)).stars i hiter,
      hstep, List.getElem_map,
      getElem!_pos (engineInit w h s r).stars i hi]
  rw [hget]
  have := drawStarUpdate_iter_fix ((engineInit w h s r).stars[i]!) htgt n
  exact ⟨this.1, this.2.1⟩

/-- Witness for C10: in the four-seed snapshot, seed star 0 keeps its layout
position after one frame. -/
theorem claim10_witness :
    0 < (engineInit 400 400 snapSeeds zeroRnd).stars.length ∧
      ((engineInit 400 400 snapSeeds zeroRnd).stars[0]!).kind = .seed ∧
      (((frameStep^[1] (engineInit 400 400 snapSeeds zeroRnd)).stars[0]!).x =
          ((engineInit 400 400 snapSeeds zeroRnd).stars[0]!).x ∧
        ((frameStep^[1] (engineInit 400 400 snapSeeds zeroRnd)).stars[0]!).y =
          ((engineInit 400 400 snapSeeds zeroRnd).stars[0]!).y) := by
  have h1 : 0 < (engineInit 400 400 snapSeeds zeroRnd).stars.length := by
    show 0 < (initStars 400 400 snapSeeds zeroRnd).2.length
    rw [initStars_length, preStars_length]
    norm_num [snapSeeds, showSeeds]
  have h2 : ((engineInit 400 400 snapSeeds zeroRnd).stars[0]!).kind = .seed := by
    show ((initStars 400 400 snapSeeds zeroRnd).2[0]!).kind = .seed
    rw [initStars_seed_star 400 400 snapSeeds zeroRnd (by decide) 0
      (by norm_num [snapSeeds])]
    rfl
  exact ⟨h1, h2,
    (claim10_frame_fixpoints 400 400 snapSeeds zeroRnd 1 100 100).2.1 0 h1 h2⟩

/-- The hit predicate of `handleClick` for ordinary stars:
`Math.hypot(x - star.x, y - star.y) < star.size + 10`. -/
noncomputable def starHit (px py : ℝ) (st : Star) : Prop :=
  Real.sqrt ((px - st.x) ^ 2 + (py - st.y) ^ 2) < st.size + 10

/-- The hit predicate of `handleClick` for the companion star:
`Math.hypot(x - c.x, y - c.y) < c.size + 15`. -/
noncomputable def companionHit (px py : ℝ) (st : Star) : Prop :=
  Real.sqrt ((px - st.x) ^ 2 + (py - st.y) ^ 2) < st.size + 15

open Classical in
/-- The `for (let star of this.stars)` loop of `handleClick`: the first star
in array order within its hit radius, if any. -/
noncomputable def firstHit (px py : ℝ) : List Star → Option Star
  | [] => none
  | st :: rest =>
      if starHit px py st then some st else firstHit px py rest

open Classical in
/-- `handleClick`: try the star array in order, then the companion star with
its larger radius.  Returns the star whose preview/info is shown. -/
noncomputable def handleClick (e : EngineState) (px py : ℝ) : Option Star :=
  match firstHit px py e.stars with
  | some st => some st
  | none =>
      if companionHit px py e.companion then some e.companion else none

lemma firstHit_eq_some (px py : ℝ) :
    ∀ (l : List Star) (st : Star), firstHit px py l = some st →
      ∃ i : Fin l.length, l.get i = st ∧ starHit px py st ∧
        ∀ k : Fin l.length, (k : ℕ) < (i : ℕ) → ¬ starHit px py (l.get k) := by
  intro l
  induction l with
  | nil => intro st hst; simp [firstHit] at hst
  | cons a rest ih =>
      intro st hst
      unfold firstHit at hst
      by_cases h : starHit px py a
      · rw [if_pos h] at hst
        obtain rfl : a = st := Option.some.inj hst
        refine ⟨⟨0, by simp⟩, rfl, h, ?_⟩
        intro k hk
        exact absurd hk (Nat.not_lt_zero _)
      · rw [if_neg h] at hst
        obtain ⟨i, hget, hhit, hpre⟩ := ih st hst
        refine ⟨⟨i + 1, by simp⟩, by simpa using hget, hhit, ?_⟩
        intro k hk
        rcases k with ⟨kv, hkv⟩
        match kv, hkv with
        | 0, hkv => simpa using h
        | Nat.succ j, hkv =>
            have hj : j < rest.length := by simpa using hkv
            have hlt : j < (i : ℕ) := by simpa using hk
            have := hpre ⟨j, hj⟩ hlt
            simpa using this

lemma assignTarget_baseSize (w h : ℚ) (all : List Star) (i : ℕ) (st : Star) :
    (assignTarget w h all i st).baseSize = st.baseSize := by
  unfold assignTarget
  split <;> rfl

lemma assignTarget_size (w h : ℚ) (all : List Star) (i : ℕ) (st : Star) :
    (assignTarget w h all i st).size = st.size := by
  unfold assignTarget
  split <;> rfl

lemma setTargetsFrom_mem (w h : ℚ) (all : List Star) (l : List Star) :
    ∀ i st, st ∈ setTargetsFrom w h all i l →
      ∃ k st0, st0 ∈ l ∧ st = assignTarget w h all k st0 := by
  induction l with
  | nil => intro i st hst; simp [setTargetsFrom] at hst
  | cons a rest ih =>
      intro i st hst
      simp only [setTargetsFrom, List.mem_cons] at hst
      rcases hst with rfl | hst
      · exact ⟨i, a, List.mem_cons_self a rest, rfl⟩
      · obtain ⟨k, st0, hst0, hk⟩ := ih (i + 1) st hst
        exact ⟨k, st0, List.mem_cons_of_mem a hst0, hk⟩

lemma seedStarsFrom_sizes (w h : ℚ) (n : ℕ) (rp rs : ℕ → ℚ)
    (l : List SeedRecord) :
    ∀ i, ∀ st ∈ seedStarsFrom w h n rp rs i l,
      st.baseSize = 5 ∧ st.size = 5 := by
  induction l with
  | nil => intro i st hst; simp [seedStarsFrom] at hst
  | cons a rest ih =>
      intro i st hst
      simp only [seedStarsFrom, List.mem_cons] at hst
      rcases hst with rfl | hst
      · exact ⟨rfl, rfl⟩
      · exact ih (i + 1) st hst

lemma drawStarUpdate_baseSize (st : Star) :
    (drawStarUpdate st).baseSize = st.baseSize := by
  unfold drawStarUpdate
  match h : st.target with
  | none => simp [h]
  | some t => simp [h]

lemma drawStarUpdate_size (st : Star) :
    (drawStarUpdate st).size =
      (st.baseSize : ℝ) * (1 + Real.sin (st.pulse + 1 / 50) * (3 / 20)) := by
  unfold drawStarUpdate
  match h : st.target with
  | none => simp [h]
  | some t => simp [h]

/-- The size bounds maintained by the render loop: the companion keeps base
size 8 and rendered size at least `8·0.9`, every other star keeps base size
in `[0, 5]` and rendered size at most `5·1.15`. -/
def sizeInv (e : EngineState) : Prop :=
  e.companion.baseSize = 8 ∧ (36 / 5 : ℝ) ≤ e.companion.size ∧
    ∀ st ∈ e.stars, 0 ≤ st.baseSize ∧ st.baseSize ≤ 5 ∧ st.size ≤ (23 / 4 : ℝ)

lemma sizeInv_init (w h : ℚ) (s : SnapshotData) (r : Rnd) :
    sizeInv (engineInit w h s r) := by
  refine ⟨rfl, by norm_num [engineInit, initStars, companionStar], ?_⟩
  intro st hst
  have hst2 : st ∈ setTargetsFrom w h (preStars w h s r) 0 (preStars w h s r) := by
    have := initStars_eq_setTargets w h s r
    rw [show (engineInit w h s r).stars = (initStars w h s r).2 from rfl,
      this] at hst
    exact hst
  obtain ⟨k, st0, hst0, rfl⟩ := setTargetsFrom_mem w h _ _ 0 st hst2
  rw [assignTarget_baseSize, assignTarget_size]
  unfold preStars at hst0
  rw [List.mem_append] at hst0
  rcases hst0 with hst0 | hst0
  · split at hst0
    · obtain ⟨hb, hs⟩ := seedStarsFrom_sizes w h _ _ _ _ 0 st0 hst0
      rw [hb, hs]
      norm_num
    · simp at hst0
  · obtain ⟨rec, hrec, k2, rfl⟩ := journeyStarsFrom_mem w h _ _ _ _ 0 st0 hst0
    refine ⟨by norm_num [createJourneyStar], by norm_num [createJourneyStar],
      ?_⟩
    show ((4 : ℝ)) ≤ 23 / 4
    norm_num

lemma sizeInv_step (e : EngineState) (he : sizeInv e) :
    sizeInv (frameStep e) := by
  obtain ⟨hb, hs, hstars⟩ := he
  refine ⟨hb, ?_, ?_⟩
  · show (36 / 5 : ℝ) ≤ (drawCompanionStarUpdate (e.time + 1 / 100) e.companion).size
    show (36 / 5 : ℝ) ≤
      (e.companion.baseSize : ℝ) * (1 + Real.sin (e.time + 1 / 100) * (1 / 10))
    rw [hb]
    nlinarith [Real.neg_one_le_sin (e.time + 1 / 100),
      Real.sin_le_one (e.time + 1 / 100)]
  · intro st hst
    have : st ∈ e.stars.map drawStarUpdate := hst
    rw [List.mem_map] at this
    obtain ⟨st0, hst0, rfl⟩ := this
    obtain ⟨h0, h5, _⟩ := hstars st0 hst0
    rw [drawStarUpdate_baseSize, drawStarUpdate_size]
    refine ⟨h0, h5, ?_⟩
    have h0R : (0 : ℝ) ≤ (st0.baseSize : ℝ) := by exact_mod_cast h0
    have h5R : (st0.baseSize : ℝ) ≤ 5 := by exact_mod_cast h5
    nlinarith [Real.neg_one_le_sin (st0.pulse + 1 / 50),
      Real.sin_le_one (st0.pulse + 1 / 50)]

lemma sizeInv_iter (w h : ℚ) (s : SnapshotData) (r : Rnd) (n : ℕ) :
    sizeInv (frameStep^[n] (engineInit w h s r)) := by
  induction n with
  | zero => exact sizeInv_init w h s r
  | succ n ih =>
      rw [Function.iterate_succ_apply']
      exact sizeInv_step _ ih

/-- C8 (amended): the hit test returns the *first* star in array order whose
distance from the pointer is below its hit radius `size + 10` (not the
nearest such star — see the counterexample); the companion star is checked
last, with its strictly larger radius `size + 15`; and at every frame the
companion's hit radius strictly exceeds that of every other star. -/
theorem claim8_hit_test :
    (∀ (px py : ℝ) (l : List Star) (st : Star),
        firstHit px py l = some st →
        ∃ i : Fin l.length, l.get i = st ∧ starHit px py st ∧
          ∀ k : Fin l.length, (k : ℕ) < (i : ℕ) →
            ¬ starHit px py (l.get k)) ∧
      (∀ (e : EngineState) (px py : ℝ) (st : Star),
        handleClick e px py = some st →
        (∃ i : Fin e.stars.length, e.stars.get i = st ∧ starHit px py st) ∨
          (st = e.companion ∧ companionHit px py e.companion ∧
            firstHit px py e.stars = none)) ∧
      (∀ (w h : ℚ) (s : SnapshotData) (r : Rnd) (n : ℕ),
        ∀ st ∈ (frameStep^[n] (engineInit w h s r)).stars,
          st.size + 10 <
            (frameStep^[n] (engineInit w h s r)).companion.size + 15) := by
  refine ⟨firstHit_eq_some, ?_, ?_⟩
  · intro e px py st hclick
    unfold handleClick at hclick
    match hfh : firstHit px py e.stars with
    | some st2 =>
        rw [hfh] at hclick
        obtain rfl : st2 = st := Option.some.inj hclick
        obtain ⟨i, hget, hhit, _⟩ := firstHit_eq_some px py e.stars st2 hfh
        exact Or.inl ⟨i, hget, hhit⟩
    | none =>
        rw [hfh] at hclick
        by_cases hc : companionHit px py e.companion
        · rw [if_pos hc] at hclick
          obtain rfl : e.companion = st := Option.some.inj hclick
          exact Or.inr ⟨rfl, hc, rfl⟩
        · rw [if_neg hc] at hclick
          exact absurd hclick (by simp)
  · intro w h s r n st hst
    obtain ⟨hb, hs, hstars⟩ := sizeInv_iter w h s r n
    obtain ⟨_, _, hsz⟩ := hstars st hst
    linarith

/-- A journey star at the origin used by the hit-test counterexample. -/
noncomputable def starA : Star :=
  { kind := .journey, x := 0, y := 0, baseSize := 4, size := 4 }

/-- A journey star at `(5, 0)` used by the hit-test counterexample. -/
noncomputable def starB : Star :=
  { kind := .journey, x := 5, y := 0, baseSize := 4, size := 4 }

/-- A concrete engine state with the two stars above. -/
noncomputable def clickState : EngineState :=
  { w := 800, h := 600, time := 0,
    companion := { kind := .companion, x := 400, y := 300, baseSize := 8, size := 8 },
    stars := [starA, starB] }

/-- C8 counterexample: clicking exactly on `starB` (distance 0) returns
`starA` (distance 5), because `starA` comes first in array order and the
pointer is still inside `starA`'s hit radius — the hit test is
first-in-order, not nearest. -/
theorem claim8_counterexample :
    handleClick clickState 5 0 = some starA ∧
      euclidDist (5, 0) (starPos starB) < euclidDist (5, 0) (starPos starA) ∧
      starHit 5 0 starB := by
  have hsqrtA : Real.sqrt (((5 : ℝ) - starA.x) ^ 2 + ((0 : ℝ) - starA.y) ^ 2) =
      5 := by
    show Real.sqrt (((5 : ℝ) - 0) ^ 2 + ((0 : ℝ) - 0) ^ 2) = 5
    rw [show ((5 : ℝ) - 0) ^ 2 + ((0 : ℝ) - 0) ^ 2 = 5 ^ 2 by norm_num,
      Real.sqrt_sq (by norm_num)]
  have hhitA : starHit 5 0 starA := by
    unfold starHit
    rw [hsqrtA]
    show (5 : ℝ) < 4 + 10
    norm_num
  have hsqrtB : Real.sqrt (((5 : ℝ) - starB.x) ^ 2 + ((0 : ℝ) - starB.y) ^ 2) =
      0 := by
    show Real.sqrt (((5 : ℝ) - 5) ^ 2 + ((0 : ℝ) - 0) ^ 2) = 0
    norm_num
  refine ⟨?_, ?_, ?_⟩
  · unfold handleClick clickState firstHit
    rw [if_pos hhitA]
  · unfold euclidDist starPos starA starB
    simp only
    rw [show ((5 : ℝ) - 5) ^ 2 + ((0 : ℝ) - 0) ^ 2 = 0 by norm_num]
    rw [show ((5 : ℝ) - 0) ^ 2 + ((0 : ℝ) - 0) ^ 2 = 5 ^ 2 by norm_num]
    rw [Real.sqrt_zero, Real.sqrt_sq (by norm_num)]
    norm_num
  · unfold starHit
    rw [hsqrtB]
    show (0 : ℝ) < 4 + 10
    norm_num

/-- Witness for C8 (amended): in the four-seed snapshot at frame 0, seed
star 0's hit radius is strictly below the companion's. -/
theorem claim8_witness :
    (frameStep^[0] (engineInit 400 400 snapSeeds zeroRnd)).stars[0]! ∈
        (frameStep^[0] (engineInit 400 400 snapSeeds zeroRnd)).stars ∧
      ((frameStep^[0] (engineInit 400 400 snapSeeds zeroRnd)).stars[0]!).size +
          10 <
        (frameStep^[0] (engineInit 400 400 snapSeeds zeroRnd)).companion.size +
          15 := by
  have hlen : 0 <
      (frameStep^[0] (engineInit 400 400 snapSeeds zeroRnd)).stars.length := by
    show 0 < (initStars 400 400 snapSeeds zeroRnd).2.length
    rw [initStars_length, preStars_length]
    norm_num [snapSeeds, showSeeds]
  have hmem : (frameStep^[0] (engineInit 400 400 snapSeeds zeroRnd)).stars[0]! ∈
      (frameStep^[0] (engineInit 400 400 snapSeeds zeroRnd)).stars := by
    rw [getElem!_pos (frameStep^[0] (engineInit 400 400 snapSeeds
      zeroRnd)).stars 0 hlen]
    exact List.getElem_mem hlen
  exact ⟨hmem,
    claim8_hit_test.2.2 400 400 snapSeeds zeroRnd 0 _ hmem⟩

/-- The frame-scheduling state of the `part_000` variant: the host's single
pending `requestAnimationFrame` callback (with a fresh id counter) and the
instance field `this.animationId`. -/
structure LoopState where
  pending : Option ℕ
  nextId : ℕ
  animationId : Option ℕ
deriving DecidableEq, Repr

/-- `requestAnimationFrame(cb)`: schedule the callback and return its id. -/
def requestFrame (s : LoopState) : ℕ × LoopState :=
  (s.nextId, { s with pending := some s.nextId, nextId := s.nextId + 1 })

/-- `cancelAnimationFrame(id)`: unschedule the pending callback if `id`
matches; a stale or unknown id is a no-op (never an error). -/
def cancelFrame (s : LoopState) (i : ℕ) : LoopState :=
  if s.pending = some i then { s with pending := none } else s

/-- The scheduling effect of one `animate()` call of `part_000`:
`this.animationId = requestAnimationFrame(() => this.animate())`. -/
def animateStep (s : LoopState) : LoopState :=
  let r := requestFrame s
  { r.2 with animationId := some r.1 }

/-- The host firing the pending callback: it is consumed, and the callback
body (`animate`) re-arms itself.  No pending callback means nothing runs. -/
def fireFrame (s : LoopState) : LoopState :=
  match s.pending with
  | some _ => animateStep { s with pending := none }
  | none => s

/-- The scheduler state after the `part_000` constructor ran (it calls
`this.animate()` once). -/
def constructLoop : LoopState :=
  animateStep { pending := none, nextId := 0, animationId := none }

/-- `destroy()` of `part_000`:
`if (this.animationId) cancelAnimationFrame(this.animationId)`.
(`this.animationId` is not cleared.) -/
def LoopState.destroy (s : LoopState) : LoopState :=
  match s.animationId with
  | some i => cancelFrame s i
  | none => s

lemma fireFrame_pending_some (s : LoopState) (k : ℕ)
    (h : s.pending = some k) :
    fireFrame s = animateStep { s with pending := none } := by
  unfold fireFrame
  rw [h]

lemma fireFrame_pending_none (s : LoopState) (h : s.pending = none) :
    fireFrame s = s := by
  unfold fireFrame
  rw [h]

lemma loop_inv (n : ℕ) :
    (fireFrame^[n] constructLoop).pending =
      (fireFrame^[n] constructLoop).animationId := by
  induction n with
  | zero => rfl
  | succ n ih =>
      rw [Function.iterate_succ_apply']
      match hp : (fireFrame^[n] constructLoop).pending with
      | some k =>
          rw [fireFrame_pending_some _ k hp]
          rfl
      | none =>
          rw [fireFrame_pending_none _ hp]
          exact ih

lemma destroy_pending_none (s : LoopState)
    (hinv : s.pending = s.animationId) : (s.destroy).pending = none := by
  unfold LoopState.destroy cancelFrame
  match ha : s.animationId with
  | none => rw [hinv, ha]
  | some i =>
      rw [hinv, ha]
      simp

lemma destroy_of_pending_none (s : LoopState) (hp : s.pending = none) :
    s.destroy = s := by
  unfold LoopState.destroy
  match ha : s.animationId with
  | none => rfl
  | some i =>
      unfold cancelFrame
      rw [hp]
      simp

/-- C9: teardown is idempotent and safe.  After any number of frames,
`destroy` leaves no callback pending; a second `destroy` is a no-op (the
stale-id cancel does nothing); the host has nothing left to fire after
`destroy`; and `destroy` before the loop ever started (no `animationId`)
is a no-op as well. -/
theorem claim9_teardown (n : ℕ) :
    ((fireFrame^[n] constructLoop).destroy).pending = none ∧
      ((fireFrame^[n] constructLoop).destroy).destroy =
        (fireFrame^[n] constructLoop).destroy ∧
      fireFrame ((fireFrame^[n] constructLoop).destroy) =
        (fireFrame^[n] constructLoop).destroy ∧
      (LoopState.mk none 0 none).destroy = LoopState.mk none 0 none := by
  have hp : ((fireFrame^[n] constructLoop).destroy).pending = none :=
    destroy_pending_none _ (loop_inv n)
  refine ⟨hp, destroy_of_pending_none _ hp, ?_, rfl⟩
  exact fireFrame_pending_none _ hp

/-- The raw `data` object received by `initConstellation` of `part_001`:
every field may be absent (`Option`), matching the
`typeof data.journey_count === 'undefined'` check and the truthiness guards
on the record arrays. -/
structure RawData where
  current_stage : ℤ := 1
  current_substage : ℤ := 1
  journey_count : Option ℤ := none
  journeys : Option (List JourneyRecord) := none
  seed_artworks : Option (List SeedRecord) := none

/-- The outcome of `initConstellation`: either an aborted initialization
(only a logged message, no stars and no loop) or a started engine
(companion star, star array, animation loop running). -/
inductive InitResult where
  | aborted (msg : String)
  | started (companion : Star) (stars : List Star) (loopRunning : Bool)

/-- Whether the initialization was rejected. -/
def InitResult.isAborted : InitResult → Bool
  | .aborted _ => true
  | .started _ _ _ => false

/-- The stars created by the initialization (none when aborted). -/
def InitResult.starList : InitResult → List Star
  | .aborted _ => []
  | .started _ stars _ => stars

/-- Whether a frame loop was started. -/
def InitResult.loopRunning : InitResult → Bool
  | .aborted _ => false
  | .started _ _ b => b

/-- `initializeStars` of the `part_001` constructor: like the main variant
but with truthiness guards — seeds only when `journey_count < 10` *and*
`seed_artworks` is present, journey stars and `organizeConstellations` only
when `journeys` is present and non-empty. -/
noncomputable def initStarsV1 (w h : ℚ) (d : RawData) (jc : ℤ) (r : Rnd) :
    Star × List Star :=
  let comp := companionStar w h d.current_stage
  let seeds :=
    if jc < 10 then
      match d.seed_artworks with
      | some sa => seedStarsFrom w h sa.length r.seedPulse r.seedShimmer 0 sa
      | none => []
    else []
  let stars :=
    match d.journeys with
    | some js =>
        if 0 < js.length then
          setTargets w h
            (seeds ++ journeyStarsFrom w h js.length r.jitter r.journeyPulse 0
              js)
        else seeds
    | none => seeds
  (comp, stars)

/-- `initConstellation` of `part_001` (lines 312-329): abort with a logged
error when the canvas element is missing, when `data` is absent, or when
`data.journey_count` is undefined; otherwise construct the `Constellation`,
which builds the stars and starts the animation loop. -/
noncomputable def initConstellationV1 (canvas : Option (ℚ × ℚ))
    (data : Option RawData) (r : Rnd) : InitResult :=
  match canvas with
  | none => .aborted "Canvas element not found!"
  | some wh =>
      match data with
      | none => .aborted "Invalid constellation data"
      | some d =>
          match d.journey_count with
          | none => .aborted "Invalid constellation data"
          | some jc =>
              let p := initStarsV1 wh.1 wh.2 d jc r
              .started p.1 p.2 true

/-- A raw data object with a journey count but no record arrays. -/
def rawNoArrays : RawData := { journey_count := some 5 }

/-- C7 counterexample: with `journey_count` present but both record arrays
absent (a malformed snapshot per the claim), `initConstellation` does *not*
abort: it starts the engine with a running loop and an empty star array
(companion only) — a partial initialization that the claim says must not
happen. -/
theorem claim7_counterexample :
    (initConstellationV1 (some (800, 600)) (some rawNoArrays)
        zeroRnd).isAborted = false ∧
      (initConstellationV1 (some (800, 600)) (some rawNoArrays)
          zeroRnd).loopRunning = true ∧
      (initConstellationV1 (some (800, 600)) (some rawNoArrays)
          zeroRnd).starList = [] := by
  refine ⟨rfl, rfl, ?_⟩
  show (initStarsV1 800 600 rawNoArrays 5 zeroRnd).2 = []
  simp [initStarsV1, rawNoArrays]

/-- C7 (amended): initialization aborts — with no stars and no loop — when
the canvas is missing, when the snapshot object is missing, or when its
journey count is absent; but absent record arrays are tolerated, not
rejected: initialization proceeds with those star groups skipped and the
loop running. -/
theorem claim7_guard :
    (∀ (d : Option RawData) (r : Rnd),
        (initConstellationV1 none d r).isAborted = true) ∧
      (∀ (c : Option (ℚ × ℚ)) (r : Rnd),
        (initConstellationV1 c none r).isAborted = true) ∧
      (∀ (wh : ℚ × ℚ) (d : RawData) (r : Rnd), d.journey_count = none →
        (initConstellationV1 (some wh) (some d) r).isAborted = true) ∧
      (∀ (c : Option (ℚ × ℚ)) (d : Option RawData) (r : Rnd),
        (initConstellationV1 c d r).isAborted = true →
        (initConstellationV1 c d r).starList = [] ∧
          (initConstellationV1 c d r).loopRunning = false) ∧
      (∀ (wh : ℚ × ℚ) (d : RawData) (jc : ℤ) (r : Rnd),
        d.journey_count = some jc → d.journeys = none →
        (initConstellationV1 (some wh) (some d) r).isAborted = false ∧
          (initConstellationV1 (some wh) (some d) r).loopRunning = true) := by
  refine ⟨?_, ?_, ?_, ?_, ?_⟩
  · intro d r
    rfl
  · intro c r
    match c with
    | none => rfl
    | some wh => rfl
  · intro wh d r hjc
    simp [initConstellationV1, hjc, InitResult.isAborted]
  · intro c d r hab
    match c with
    | none => exact ⟨rfl, rfl⟩
    | some wh =>
        match d with
        | none => exact ⟨rfl, rfl⟩
        | some dd =>
            match hjc : dd.journey_count with
            | none =>
                simp [initConstellationV1, hjc, InitResult.starList,
                  InitResult.loopRunning]
            | some jc =>
                have hfalse : (initConstellationV1 (some wh) (some dd)
                    r).isAborted = false := by
                  simp [initConstellationV1, hjc, InitResult.isAborted]
                rw [hfalse] at hab
                exact absurd hab (by simp)
  · intro wh d jc r hjc _
    constructor
    · simp [initConstellationV1, hjc, InitResult.isAborted]
    · simp [initConstellationV1, hjc, InitResult.loopRunning]

/-- Witness for C7 (amended): a snapshot with an undefined journey count is
rejected; one with a journey count but no `journeys` array is accepted with
the loop running. -/
theorem claim7_witness :
    ({} : RawData).journey_count = none ∧
      (initConstellationV1 (some (800, 600)) (some {}) zeroRnd).isAborted =
        true ∧
      rawNoArrays.journey_count = some 5 ∧ rawNoArrays.journeys = none ∧
      ((initConstellationV1 (some (800, 600)) (some rawNoArrays)
          zeroRnd).isAborted = false ∧
        (initConstellationV1 (some (800, 600)) (some rawNoArrays)
            zeroRnd).loopRunning = true) :=
  ⟨rfl, claim7_guard.2.2.1 (800, 600) {} zeroRnd rfl, rfl, rfl,
    claim7_guard.2.2.2.2 (800, 600) rawNoArrays 5 zeroRnd rfl rfl⟩

end SlowMA
